import Mathlib

/-!
Shallow embedding of the `Utilities` C library: the print / compare / to-string /
from-string helper families over primitive values (character, integer, double, string).

The working tree holds two copies of `utilities.c`.  The copy at
`src/src/utilities.c` is embedded at top level; the second (unnamed) copy, which
differs in `util_int_cmp`, `MAX_INT_LEN`, and the three parsing functions, is
embedded in namespace `Part006`.

Modelling conventions:
* a C handle (`const void *`) is an `Option` of the pointed-to value, `none`
  being the NULL / absent sentinel;
* C strings are lists of byte values (the NUL terminator is the end of list);
* `int` arithmetic wraps at 2^32 (`wrap32`), matching two's-complement targets;
* binary64 values are modelled extensionally for the comparison operators:
  NaN, the two infinities, and finite values as rationals (signed zeros are
  identified - they are `==`-equal and neither `<` nor `>` holds for them);
* `malloc` success, write success and the incoming `errno` value are explicit
  parameters; platform `strtod` is an explicit parse-result parameter.
-/

/-- Byte values of a C string literal (no NUL terminator). -/
def bytes (s : String) : List Nat := s.data.map Char.toNat

/-- The errno value `ERANGE` (34 on the target platform). -/
def ERANGE : Int := 34

/-- INT_MAX from limits.h. -/
def INT_MAX : Int := 2147483647

/-- INT_MIN from limits.h. -/
def INT_MIN : Int := -2147483648

/-- LONG_MAX from limits.h (64-bit long). -/
def LONG_MAX : Int := 9223372036854775807

/-- LONG_MIN from limits.h (64-bit long). -/
def LONG_MIN : Int := -9223372036854775808

/-- Narrowing of a mathematical integer to the C `int` value it denotes:
two's-complement wrap modulo 2^32. -/
def wrap32 (x : Int) : Int := (x + 2147483648) % 4294967296 - 2147483648

/-- C `!p` for a pointer argument: 1 when NULL, 0 otherwise. -/
def isNullFlag (p : Option α) : Nat := if p.isNone then 1 else 0

/-- The comparison one-liner `(!p1 < !p2) - (!p1 > !p2)` used by every
`util_*_cmp` function when at least one argument is NULL. -/
def nullCmp (p1 p2 : Option α) : Int :=
  (if isNullFlag p1 < isNullFlag p2 then 1 else 0) -
    (if isNullFlag p1 > isNullFlag p2 then 1 else 0)

/-- Extensional model of a binary64 value, as far as `<`, `>` and the text of
this library observe it: NaN, the infinities, and finite numeric values. -/
inductive DoubleV : Type
  | nan
  | negInf
  | posInf
  | fin (q : ℚ)
deriving DecidableEq

/-- IEEE-754 `<` on the model: false whenever NaN is involved, otherwise the
numeric order with `negInf` at the bottom and `posInf` at the top. -/
def dlt : DoubleV → DoubleV → Bool
  | .negInf, .posInf => true
  | .negInf, .fin _ => true
  | .fin _, .posInf => true
  | .fin a, .fin b => decide (a < b)
  | _, _ => false

/-- IEEE-754 `>` on the model. -/
def dgt (a b : DoubleV) : Bool := dlt b a

/-- C `strcmp` on NUL-terminated byte strings: the difference of the first
differing byte pair, scanning stops at the terminator. -/
def strcmp : List Nat → List Nat → Int
  | [], [] => 0
  | [], b :: _ => -(b : Int)
  | a :: _, [] => (a : Int)
  | a :: as, b :: bs =>
    if a = b then (if a = 0 then 0 else strcmp as bs) else (a : Int) - (b : Int)

/- SECTION - comparison functions of src/src/utilities.c -/

/-- util_char_cmp: NULL handling, then `*(const char *) char1 - *(const char *) char2`
(an `int` subtraction of the two promoted character values). -/
def util_char_cmp (char1 char2 : Option Int) : Int :=
  match char1, char2 with
  | some c1, some c2 => wrap32 (c1 - c2)
  | _, _ => nullCmp char1 char2

/-- util_int_cmp in src/src/utilities.c: NULL handling, then
`*(const int *) int1 - *(const int *) int2` (an `int` subtraction, which wraps). -/
def util_int_cmp (int1 int2 : Option Int) : Int :=
  match int1, int2 with
  | some i1, some i2 => wrap32 (i1 - i2)
  | _, _ => nullCmp int1 int2

/-- util_double_cmp: NULL handling, then `(d1 > d2) - (d1 < d2)`. -/
def util_double_cmp (double1 double2 : Option DoubleV) : Int :=
  match double1, double2 with
  | some d1, some d2 => (if dgt d1 d2 then 1 else 0) - (if dlt d1 d2 then 1 else 0)
  | _, _ => nullCmp double1 double2

/-- util_string_cmp: NULL handling, then `strcmp` on the two pointed-to strings. -/
def util_string_cmp (str1 str2 : Option (List Nat)) : Int :=
  match str1, str2 with
  | some s1, some s2 => strcmp s1 s2
  | _, _ => nullCmp str1 str2

/- SECTION - printing functions of src/src/utilities.c -/

/-- Model of `fprintf(f, ...)` producing the byte sequence `out`: on a working
stream it writes `out` and returns the byte count, otherwise a negative value. -/
def fprintfModel (writeOk : Bool) (out : List Nat) : Int × List Nat :=
  if writeOk then ((out.length : Int), out) else (-1, [])

/-- DEF_NULL from macros.h: the string representation of NULL. -/
def DEF_NULL : List Nat := bytes ("null")

/-- Decimal digit bytes of a natural number (fuel-based division recursion). -/
def natDecAux : Nat → Nat → List Nat
  | 0, _ => []
  | fuel + 1, n => if n < 10 then [48 + n] else natDecAux fuel (n / 10) ++ [48 + n % 10]

/-- Decimal byte text of a natural number. -/
def natDecBytes (n : Nat) : List Nat := natDecAux (n + 1) n

/-- Decimal byte text of an integer, as printf `%d` produces it. -/
def intDecBytes (x : Int) : List Nat :=
  if x < 0 then 45 :: natDecBytes (-x).toNat else natDecBytes x.toNat

/-- The byte `%c` emits for a char value (reinterpreted as an unsigned byte). -/
def charByte (c : Int) : Nat := (c % 256).toNat

/-- util_generic_print: `fprintf(f, "%s ", DEF_NULL)` for NULL, otherwise
`fprintf(f, "%p ", p)` where `fmtPtr` is the platform pointer formatter. -/
def util_generic_print (fmtPtr : Nat → List Nat) (writeOk : Bool) (p : Option Nat) :
    Int × List Nat :=
  match p with
  | none => fprintfModel writeOk (DEF_NULL ++ [32])
  | some a => fprintfModel writeOk (fmtPtr a ++ [32])

/-- util_char_print: `fprintf(f, "%c ", *(const char *) c)` for a present handle. -/
def util_char_print (writeOk : Bool) (c : Option Int) : Int × List Nat :=
  match c with
  | none => fprintfModel writeOk (DEF_NULL ++ [32])
  | some v => fprintfModel writeOk ([charByte v, 32])

/-- util_int_print: `fprintf(f, "%d ", *(const int *) i)` for a present handle. -/
def util_int_print (writeOk : Bool) (i : Option Int) : Int × List Nat :=
  match i with
  | none => fprintfModel writeOk (DEF_NULL ++ [32])
  | some v => fprintfModel writeOk (intDecBytes v ++ [32])

/-- util_double_print: `fprintf(f, "%.*g", DBL_DIG, *(const double *) d)` for a
present handle, where `fmtG` is the platform `%.*g` formatter.  Note the format
string carries no trailing space. -/
def util_double_print (fmtG : DoubleV → List Nat) (writeOk : Bool) (d : Option DoubleV) :
    Int × List Nat :=
  match d with
  | none => fprintfModel writeOk (DEF_NULL ++ [32])
  | some v => fprintfModel writeOk (fmtG v)

/-- util_string_print: `fprintf(f, "%s ", ...)` for a present handle. -/
def util_string_print (writeOk : Bool) (s : Option (List Nat)) : Int × List Nat :=
  match s with
  | none => fprintfModel writeOk (DEF_NULL ++ [32])
  | some v => fprintfModel writeOk (v ++ [32])

/- SECTION - to-string functions of src/src/utilities.c -/

/-- Model of `snprintf(str, size, ...)`: at most `size - 1` content bytes are
kept, the rest is truncated. -/
def snprintfTrunc (size : Nat) (content : List Nat) : List Nat := content.take (size - 1)

/-- MAX_INT_LEN in src/src/utilities.c: `(size_t) ceil(log10(INT_MAX))`, which
evaluates to 10 (no room is reserved for a sign). -/
def MAX_INT_LEN : Nat := 10

/-- util_int_to_string in src/src/utilities.c: NULL in, NULL out; otherwise
malloc of `MAX_INT_LEN + 1` bytes and `snprintf(str, MAX_INT_LEN + 1, "%d", *n)`. -/
def util_int_to_string (mallocOk : Bool) (n : Option Int) : Option (List Nat) :=
  match n with
  | none => none
  | some v =>
    if mallocOk then some (snprintfTrunc (MAX_INT_LEN + 1) (intDecBytes v)) else none

/- SECTION - from-string functions of src/src/utilities.c -/

/-- Result of a `strtol(str, &end, 10)` call: the returned long, the number of
bytes consumed (`end - str`), and whether errno was set to ERANGE. -/
structure StrtolResult where
  value : Int
  consumed : Nat
  rangeErr : Bool
deriving DecidableEq

/-- isspace bytes skipped by strtol. -/
def isSpaceByte (b : Nat) : Bool := if b = 32 ∨ (9 ≤ b ∧ b ≤ 13) then true else false

/-- ASCII decimal digit bytes. -/
def isDigitByte (b : Nat) : Bool := if 48 ≤ b ∧ b ≤ 57 then true else false

/-- Numeric value of a run of decimal digit bytes. -/
def digitsVal (ds : List Nat) : Nat := ds.foldl (fun acc b => acc * 10 + (b - 48)) 0

/-- Model of `strtol(str, &end, 10)`: skip whitespace, optional sign, a decimal
digit run; no digits means no conversion (`end == str`); a value outside the
long range is clamped and flagged ERANGE. -/
def strtol (s : List Nat) : StrtolResult :=
  let ws := (s.takeWhile isSpaceByte).length
  let rest := s.drop ws
  let signLen : Nat :=
    match rest with
    | 43 :: _ => 1
    | 45 :: _ => 1
    | _ => 0
  let sgn : Int :=
    match rest with
    | 45 :: _ => -1
    | _ => 1
  let ds := (rest.drop signLen).takeWhile isDigitByte
  if ds.length = 0 then ⟨0, 0, false⟩
  else
    let raw : Int := sgn * (digitsVal ds : Int)
    if raw > LONG_MAX then ⟨LONG_MAX, ws + signLen + ds.length, true⟩
    else if raw < LONG_MIN then ⟨LONG_MIN, ws + signLen + ds.length, true⟩
    else ⟨raw, ws + signLen + ds.length, false⟩

/-- util_int_from_string in src/src/utilities.c.  errno is not cleared before
the `strtol` call (`errno0` is the incoming value), the range test is
`tmp > INT_MAX || tmp < INT_MAX`, and the errno check is
`check(errno != 0, ...)`, which jumps to the error exit when errno IS zero. -/
def util_int_from_string (mallocOk : Bool) (errno0 : Int) (str : List Nat) : Option Int :=
  if mallocOk = false then none
  else
    let r := strtol str
    let errno1 := if r.rangeErr then ERANGE else errno0
    let errno2 := if r.value > INT_MAX ∨ r.value < INT_MAX then ERANGE else errno1
    if errno2 = 0 then none
    else if r.consumed = 0 then none
    else some (wrap32 r.value)

/-- Result of a `strtod(str, &end)` call: the returned value, whether any
characters were consumed (`end != str`), and whether errno was set to ERANGE
(overflow to an infinity or underflow toward zero). -/
structure StrtodResult where
  value : DoubleV
  consumed : Bool
  rangeErr : Bool
deriving DecidableEq

/-- Platform `strtod` on the empty string: value 0.0, nothing consumed, no
range error. -/
def strtodEmpty : StrtodResult := ⟨DoubleV.fin 0, false, false⟩

/-- util_double_from_string in src/src/utilities.c.  errno is not cleared
before the `strtod` call and the errno check is `check(errno != 0, ...)`,
which jumps to the error exit when errno IS zero. -/
def util_double_from_string (mallocOk : Bool) (errno0 : Int) (r : StrtodResult) :
    Option DoubleV :=
  if mallocOk = false then none
  else
    let errno1 := if r.rangeErr then ERANGE else errno0
    if errno1 = 0 then none
    else if r.consumed = false then none
    else some r.value

/-- util_char_from_string: malloc one char and copy the first byte of the input
(the NUL terminator when the input is empty), reinterpreted as a signed char. -/
def util_char_from_string (mallocOk : Bool) (str : List Nat) : Option Int :=
  if mallocOk then some (if str.headD 0 < 128 then (str.headD 0 : Int) else (str.headD 0 : Int) - 256)
  else none

/-- util_string_from_string in src/src/utilities.c: malloc a `char *` cell,
strdup the input into it (two allocations). -/
def util_string_from_string (mallocOk1 mallocOk2 : Bool) (str : List Nat) :
    Option (List Nat) :=
  if mallocOk1 = false then none
  else if mallocOk2 = false then none
  else some str

/- SECTION - the second (unnamed) copy of utilities.c -/

namespace Part006

/-- util_int_cmp in the second copy: `(i1 > i2) - (i1 < i2)`, no subtraction. -/
def util_int_cmp (int1 int2 : Option Int) : Int :=
  match int1, int2 with
  | some i1, some i2 => (if i1 > i2 then 1 else 0) - (if i1 < i2 then 1 else 0)
  | _, _ => nullCmp int1 int2

/-- MAX_INT_LEN in the second copy: `1 + (int) ceil(log10(INT_MAX))` = 11
(one extra byte for the sign). -/
def MAX_INT_LEN : Nat := 11

/-- util_int_to_string in the second copy (buffer of `MAX_INT_LEN + 1` = 12 bytes). -/
def util_int_to_string (mallocOk : Bool) (n : Option Int) : Option (List Nat) :=
  match n with
  | none => none
  | some v =>
    if mallocOk then some (snprintfTrunc (MAX_INT_LEN + 1) (intDecBytes v)) else none

/-- util_int_from_string in the second copy: `errno = 0` before the parse, the
range test is `tmp > INT_MAX || tmp < INT_MIN`, and the check is
`check(errno == 0, ...)`. -/
def util_int_from_string (mallocOk : Bool) (str : List Nat) : Option Int :=
  if mallocOk = false then none
  else
    let r := strtol str
    let errno1 := if r.rangeErr then ERANGE else 0
    let errno2 := if r.value > INT_MAX ∨ r.value < INT_MIN then ERANGE else errno1
    if errno2 ≠ 0 then none
    else if r.consumed = 0 then none
    else some (wrap32 r.value)

/-- util_double_from_string in the second copy: `errno = 0` before the parse
and `check(errno == 0, ...)`. -/
def util_double_from_string (mallocOk : Bool) (r : StrtodResult) : Option DoubleV :=
  if mallocOk = false then none
  else
    let errno1 := if r.rangeErr then ERANGE else 0
    if errno1 ≠ 0 then none
    else if r.consumed = false then none
    else some r.value

end Part006

/- SECTION - order predicates used by the comparison claims -/

/-- Lift a value predicate to the handle (option) domain; the absent sentinel
always qualifies. -/
def OptAll (P : α → Prop) : Option α → Prop
  | none => True
  | some v => P v

/-- A comparison function implements a total order with the null-first
convention over handles whose present values satisfy `P`. -/
structure CmpTotalOrderOn (P : α → Prop) (cmp : Option α → Option α → Int) : Prop where
  refl : ∀ x, OptAll P x → cmp x x = 0
  antisymm : ∀ x y, OptAll P x → OptAll P y → cmp x y ≤ 0 → cmp y x ≤ 0 → x = y
  le_trans : ∀ x y z, OptAll P x → OptAll P y → OptAll P z →
    cmp x y ≤ 0 → cmp y z ≤ 0 → cmp x z ≤ 0
  total : ∀ x y, OptAll P x → OptAll P y → cmp x y ≤ 0 ∨ cmp y x ≤ 0
  null_first : ∀ v, P v → cmp none (some v) < 0
  null_refl : cmp none none = 0

/-- Valid platform char values (signed 8-bit). -/
def charValid (c : Int) : Prop := -128 ≤ c ∧ c ≤ 127

/-- Valid 32-bit signed integer values. -/
def intValid (i : Int) : Prop := INT_MIN ≤ i ∧ i ≤ INT_MAX

/-- Double values that are not NaN. -/
def doubleValid (d : DoubleV) : Prop := d ≠ DoubleV.nan

/-- Valid C string contents: nonzero bytes below 256. -/
def strValid (s : List Nat) : Prop := ∀ b ∈ s, 0 < b ∧ b < 256

/-- The present-value branch `(d1 > d2) - (d1 < d2)` of util_double_cmp. -/
def dcmp (d1 d2 : DoubleV) : Int :=
  (if dgt d1 d2 then 1 else 0) - (if dlt d1 d2 then 1 else 0)

/-- Rank of a double value in the extended rational order (used only to reason
about the order; NaN is mapped to the bottom rank it never exercises). -/
def dval : DoubleV → WithBot (WithTop ℚ)
  | .nan => ⊥
  | .negInf => ⊥
  | .posInf => ((⊤ : WithTop ℚ) : WithBot (WithTop ℚ))
  | .fin q => (((q : ℚ) : WithTop ℚ) : WithBot (WithTop ℚ))

/- SECTION - theorems -/

/-- C8: every print operation applied to the absent sentinel and a working
stream writes exactly the five bytes of `"null "` (DEF_NULL plus the
separating space) and returns the non-negative count 5. -/
theorem print_null_writes_null_token :
    (∀ fmtPtr : Nat → List Nat, util_generic_print fmtPtr true none = (5, bytes ("null "))) ∧
    util_char_print true none = (5, bytes ("null ")) ∧
    util_int_print true none = (5, bytes ("null ")) ∧
    (∀ fmtG : DoubleV → List Nat, util_double_print fmtG true none = (5, bytes ("null "))) ∧
    util_string_print true none = (5, bytes ("null ")) ∧
    (bytes ("null ")).length = 5 ∧ (0 : Int) ≤ 5 := by
  refine ⟨fun _ => rfl, by decide, by decide, fun _ => rfl, by decide, by decide, by decide⟩

/-- Witness for C8 at a concrete pointer formatter. -/
theorem print_null_writes_null_token_witness :
    util_generic_print (fun _ => []) true none = (5, bytes ("null ")) :=
  print_null_writes_null_token.1 (fun _ => [])

/-- C10: a NaN double handle compares equal (result 0) to every double handle
in both argument orders, including values that compare unequal to each other. -/
theorem double_cmp_nan_equals_everything :
    (∀ d : DoubleV, util_double_cmp (some DoubleV.nan) (some d) = 0 ∧
      util_double_cmp (some d) (some DoubleV.nan) = 0) ∧
    util_double_cmp (some (DoubleV.fin 1)) (some (DoubleV.fin 2)) < 0 := by
  constructor
  · intro d
    cases d <;> exact ⟨rfl, rfl⟩
  · decide

/-- Witness for C10 at a concrete double value. -/
theorem double_cmp_nan_equals_everything_witness :
    util_double_cmp (some DoubleV.nan) (some (DoubleV.fin 1)) = 0 :=
  (double_cmp_nan_equals_everything.1 (DoubleV.fin 1)).1

/-- C1 fails on src/src/utilities.c: with errno 0 at entry and allocation
succeeding, the out-of-range input "2147483648" is narrowed and returned as
-2147483648 instead of NULL, while the in-range input "2147483647" is rejected
(the inverted errno check fires because the parse sets no error).  The second
copy of utilities.c behaves as the claim (and the repository's own
test_int_from_string_overflow test) states. -/
theorem int_from_string_range_discrimination_bug :
    util_int_from_string true 0 (bytes ("2147483648")) = some (-2147483648) ∧
    util_int_from_string true 0 (bytes ("2147483647")) = none ∧
    Part006.util_int_from_string true (bytes ("2147483648")) = none ∧
    Part006.util_int_from_string true (bytes ("2147483647")) = some 2147483647 := by
  decide

/-- C3 fails on src/src/utilities.c: the round trip from_string(to_string(n))
yields the absent sentinel at n = 2147483647 (the integer prints exactly, but
the inverted errno check rejects the parse) and a wrong value at
n = -1000000000 (the undersized buffer truncates "-1000000000" to
"-100000000").  The second copy round-trips both values. -/
theorem int_round_trip_fails_at_intmax :
    (util_int_to_string true (some 2147483647)).bind (util_int_from_string true 0) = none ∧
    (util_int_to_string true (some (-1000000000))).bind (util_int_from_string true 0) =
      some (-100000000) ∧
    (Part006.util_int_to_string true (some 2147483647)).bind
      (Part006.util_int_from_string true) = some 2147483647 ∧
    (Part006.util_int_to_string true (some (-2147483648))).bind
      (Part006.util_int_from_string true) = some (-2147483648) ∧
    Part006.util_int_cmp (some 2147483647) (some 2147483647) = 0 := by
  decide

/-- C4 fails on src/src/utilities.c: MAX_INT_LEN is 10, so the 11-byte buffer
truncates the decimal text of INT_MIN to "-214748364".  The second copy
reserves a sign byte (MAX_INT_LEN = 11) and formats INT_MIN exactly. -/
theorem int_to_string_intmin_truncated :
    util_int_to_string true (some (-2147483648)) = some (bytes ("-214748364")) ∧
    (bytes ("-2147483648")).length = 11 ∧
    MAX_INT_LEN = 10 ∧
    Part006.util_int_to_string true (some (-2147483648)) = some (bytes ("-2147483648")) := by
  decide

/-- C5 fails on src/src/utilities.c: with errno 0 at entry, a parse that sets
ERANGE (overflow to infinity, as for "34e+1024") slips past the inverted errno
check and the clamped infinity is returned, while an ordinary successful parse
(errno still 0) is rejected.  The second copy returns the absent sentinel on
every range error, as the claim states. -/
theorem double_from_string_range_bug :
    util_double_from_string true 0 ⟨DoubleV.posInf, true, true⟩ = some DoubleV.posInf ∧
    util_double_from_string true 0 ⟨DoubleV.fin 0, true, true⟩ = some (DoubleV.fin 0) ∧
    util_double_from_string true 0 ⟨DoubleV.fin (3 / 2), true, false⟩ = none ∧
    Part006.util_double_from_string true ⟨DoubleV.posInf, true, true⟩ = none ∧
    Part006.util_double_from_string true ⟨DoubleV.fin 0, true, true⟩ = none := by
  decide

/-- C6: on the empty input string, with allocation succeeding, the integer and
double parsers return the absent sentinel (no digits consumed, for any incoming
errno value), the character parser returns the NUL character, and the string
parser returns an owned empty string; the second copy of utilities.c agrees. -/
theorem from_string_empty_per_kind :
    (∀ errno0 : Int, util_int_from_string true errno0 (bytes ("")) = none) ∧
    (∀ errno0 : Int, util_double_from_string true errno0 strtodEmpty = none) ∧
    util_char_from_string true (bytes ("")) = some 0 ∧
    util_string_from_string true true (bytes ("")) = some (bytes ("")) ∧
    Part006.util_int_from_string true (bytes ("")) = none ∧
    Part006.util_double_from_string true strtodEmpty = none := by
  refine ⟨fun errno0 => rfl, fun errno0 => ?_, by decide, by decide, by decide, by decide⟩
  unfold util_double_from_string strtodEmpty
  by_cases h : errno0 = 0 <;> simp [h, ERANGE]

/-- Witness for C6 at the incoming errno value 0. -/
theorem from_string_empty_per_kind_witness :
    util_int_from_string true 0 (bytes ("")) = none :=
  from_string_empty_per_kind.1 0

/-- C7 fails on the double kind: `util_double_print` formats with "%.*g" and no
trailing separator, so (with the platform formatter, rendering 1.0 as "1") a
present double handle yields exactly the token with no following space, while
the char, int and string printers do append the single space their formats
carry.  Both header copies document the double printer as "followed by a
space". -/
theorem double_print_missing_trailing_space :
    util_double_print (fun _ => bytes ("1")) true (some (DoubleV.fin 1)) = (1, bytes ("1")) ∧
    bytes ("1") ≠ bytes ("1 ") ∧
    util_int_print true (some 1) = (2, bytes ("1 ")) ∧
    util_char_print true (some 97) = (2, bytes ("a ")) ∧
    util_string_print true (some (bytes ("a"))) = (2, bytes ("a ")) := by
  decide

/-- C9: on valid (non-null) character handles util_char_cmp returns exactly the
difference of the two signed 8-bit codes; that difference lies in [-255, 255],
so the `int` subtraction cannot wrap and the sign of the result always matches
the numeric order of the codes - unlike util_int_cmp in src/src/utilities.c,
whose analogous subtraction wraps on the pair (INT_MAX, -1) and reports the
larger value as smaller. -/
theorem char_cmp_difference_exact :
    (∀ c1 c2 : Int, -128 ≤ c1 → c1 ≤ 127 → -128 ≤ c2 → c2 ≤ 127 →
      util_char_cmp (some c1) (some c2) = c1 - c2 ∧
      -255 ≤ c1 - c2 ∧ c1 - c2 ≤ 255 ∧
      (util_char_cmp (some c1) (some c2) < 0 ↔ c1 < c2) ∧
      (util_char_cmp (some c1) (some c2) = 0 ↔ c1 = c2) ∧
      (0 < util_char_cmp (some c1) (some c2) ↔ c2 < c1)) ∧
    util_int_cmp (some 2147483647) (some (-1)) < 0 ∧ (-1 : Int) < 2147483647 := by
  refine ⟨fun c1 c2 h1 h2 h3 h4 => ?_, by decide, by decide⟩
  have hw : util_char_cmp (some c1) (some c2) = c1 - c2 := by
    show wrap32 (c1 - c2) = c1 - c2
    unfold wrap32
    omega
  refine ⟨hw, by omega, by omega, ?_, ?_, ?_⟩ <;> rw [hw] <;> omega

/-- Witness for C9 at the concrete characters 'A' (65) and 'a' (97). -/
theorem char_cmp_difference_exact_witness :
    util_char_cmp (some 65) (some 97) = 65 - 97 :=
  (char_cmp_difference_exact.1 65 97 (by norm_num) (by norm_num) (by norm_num)
    (by norm_num)).1

/-- A value in the int range is unchanged by the narrowing wrap. -/
theorem wrap32_eq_of_small (x : Int) (h1 : -2147483648 ≤ x) (h2 : x ≤ 2147483647) :
    wrap32 x = x := by
  unfold wrap32
  omega

/-- Total-order laws for a comparison with the common NULL-handling shape,
built from value-level laws of its present-value branch. -/
theorem cmpTotalOrderOn_of_value {α : Type} (P : α → Prop)
    (cmp : Option α → Option α → Int) (f : α → α → Int)
    (hss : ∀ a b, cmp (some a) (some b) = f a b)
    (hnn : cmp none none = 0)
    (hns : ∀ a, cmp none (some a) = -1)
    (hsn : ∀ a, cmp (some a) none = 1)
    (hrefl : ∀ a, P a → f a a = 0)
    (hanti : ∀ a b, P a → P b → f a b ≤ 0 → f b a ≤ 0 → a = b)
    (htrans : ∀ a b c, P a → P b → P c → f a b ≤ 0 → f b c ≤ 0 → f a c ≤ 0)
    (htotal : ∀ a b, P a → P b → f a b ≤ 0 ∨ f b a ≤ 0) :
    CmpTotalOrderOn P cmp := by
  constructor
  · intro x hx
    cases x with
    | none => exact hnn
    | some a => exact (hss a a).trans (hrefl a hx)
  · intro x y hx hy h1 h2
    cases x with
    | none =>
      cases y with
      | none => rfl
      | some b => rw [hsn b] at h2; omega
    | some a =>
      cases y with
      | none => rw [hsn a] at h1; omega
      | some b =>
        rw [hss] at h1
        rw [hss] at h2
        exact congrArg some (hanti a b hx hy h1 h2)
  · intro x y z hx hy hz h1 h2
    cases x with
    | none =>
      cases z with
      | none => rw [hnn]
      | some c => rw [hns c]; omega
    | some a =>
      cases y with
      | none => rw [hsn a] at h1; omega
      | some b =>
        cases z with
        | none => rw [hsn b] at h2; omega
        | some c =>
          rw [hss] at h1
          rw [hss] at h2
          rw [hss]
          exact htrans a b c hx hy hz h1 h2
  · intro x y hx hy
    cases x with
    | none =>
      cases y with
      | none => left; rw [hnn]
      | some b => left; rw [hns b]; omega
    | some a =>
      cases y with
      | none => right; rw [hns a]; omega
      | some b =>
        rw [hss, hss]
        exact htotal a b hx hy
  · intro v _
    rw [hns v]
    omega
  · exact hnn

/-- Antisymmetry of the char subtraction on valid char values. -/
theorem char_sub_antisymm (a b : Int) (ha : charValid a) (hb : charValid b)
    (h1 : wrap32 (a - b) ≤ 0) (h2 : wrap32 (b - a) ≤ 0) : a = b := by
  obtain ⟨ha1, ha2⟩ := ha
  obtain ⟨hb1, hb2⟩ := hb
  unfold wrap32 at h1 h2
  omega

/-- Transitivity of the char subtraction comparison on valid char values. -/
theorem char_sub_le_trans (a b c : Int) (ha : charValid a) (hb : charValid b)
    (hc : charValid c) (h1 : wrap32 (a - b) ≤ 0) (h2 : wrap32 (b - c) ≤ 0) :
    wrap32 (a - c) ≤ 0 := by
  obtain ⟨ha1, ha2⟩ := ha
  obtain ⟨hb1, hb2⟩ := hb
  obtain ⟨hc1, hc2⟩ := hc
  unfold wrap32 at h1 h2 ⊢
  omega

/-- Totality of the char subtraction comparison on valid char values. -/
theorem char_sub_total (a b : Int) (ha : charValid a) (hb : charValid b) :
    wrap32 (a - b) ≤ 0 ∨ wrap32 (b - a) ≤ 0 := by
  obtain ⟨ha1, ha2⟩ := ha
  obtain ⟨hb1, hb2⟩ := hb
  unfold wrap32
  omega

/-- The total-order laws for util_char_cmp on valid char values. -/
theorem util_char_cmp_laws : CmpTotalOrderOn charValid util_char_cmp := by
  refine cmpTotalOrderOn_of_value charValid util_char_cmp (fun a b => wrap32 (a - b))
    (fun a b => rfl) rfl (fun a => rfl) (fun a => rfl) ?_ char_sub_antisymm
    char_sub_le_trans char_sub_total
  intro a _
  show wrap32 (a - a) = 0
  rw [sub_self]
  decide

/-- The total-order laws for util_int_cmp of the second copy of utilities.c
(explicit greater/less evaluation, no subtraction). -/
theorem part006_util_int_cmp_laws : CmpTotalOrderOn intValid Part006.util_int_cmp := by
  refine cmpTotalOrderOn_of_value intValid Part006.util_int_cmp
    (fun i1 i2 => (if i1 > i2 then 1 else 0) - (if i1 < i2 then 1 else 0))
    (fun a b => rfl) rfl (fun a => rfl) (fun a => rfl) ?_ ?_ ?_ ?_
  · intro a _
    simp
  · intro a b _ _ h1 h2
    dsimp only at h1 h2
    split_ifs at h1 h2 <;> omega
  · intro a b c _ _ _ h1 h2
    dsimp only at h1 h2 ⊢
    split_ifs at h1 h2 ⊢ <;> omega
  · intro a b _ _
    dsimp only
    rcases le_or_lt a b with h | h
    · left; split_ifs <;> omega
    · right; split_ifs <;> omega

/-- The strict order `dlt` never relates a value to itself. -/
theorem dlt_self (a : DoubleV) : dlt a a = false := by
  cases a with
  | nan => rfl
  | negInf => rfl
  | posInf => rfl
  | fin q => simp [dlt]

/-- On non-NaN values, `dlt` agrees with the extended rational rank order. -/
theorem dlt_iff_dval (a b : DoubleV) (ha : a ≠ DoubleV.nan) (hb : b ≠ DoubleV.nan) :
    dlt a b = true ↔ dval a < dval b := by
  cases a <;> cases b <;>
    simp_all [dlt, dval, WithBot.bot_lt_coe, WithTop.coe_lt_top]
  exact WithBot.coe_lt_coe.mpr (WithTop.coe_lt_top _)

/-- The rank map is injective on non-NaN values. -/
theorem dval_inj (a b : DoubleV) (ha : a ≠ DoubleV.nan) (hb : b ≠ DoubleV.nan)
    (h : dval a = dval b) : a = b := by
  cases a <;> cases b <;> simp_all [dval]

/-- On non-NaN values, `dcmp a b ≤ 0` means rank a ≤ rank b. -/
theorem dcmp_le_iff (a b : DoubleV) (ha : a ≠ DoubleV.nan) (hb : b ≠ DoubleV.nan) :
    dcmp a b ≤ 0 ↔ dval a ≤ dval b := by
  unfold dcmp dgt
  cases hba : dlt b a <;> cases hab : dlt a b
  · have h1 : ¬ dval b < dval a := by
      rw [← dlt_iff_dval b a hb ha, hba]
      simp
    simp [not_lt.mp h1]
  · have h1 : dval a < dval b := (dlt_iff_dval a b ha hb).mp hab
    simp [le_of_lt h1]
  · have h1 : dval b < dval a := (dlt_iff_dval b a hb ha).mp hba
    simp [not_le.mpr h1]
  · have h1 : dval a < dval b := (dlt_iff_dval a b ha hb).mp hab
    simp [le_of_lt h1]

/-- The total-order laws for util_double_cmp on non-NaN values. -/
theorem util_double_cmp_laws : CmpTotalOrderOn doubleValid util_double_cmp := by
  refine cmpTotalOrderOn_of_value doubleValid util_double_cmp dcmp
    (fun a b => rfl) rfl (fun a => rfl) (fun a => rfl) ?_ ?_ ?_ ?_
  · intro a _
    unfold dcmp dgt
    rw [dlt_self]
    simp
  · intro a b ha hb h1 h2
    exact dval_inj a b ha hb
      (le_antisymm ((dcmp_le_iff a b ha hb).mp h1) ((dcmp_le_iff b a hb ha).mp h2))
  · intro a b c ha hb hc h1 h2
    exact (dcmp_le_iff a c ha hc).mpr
      (le_trans ((dcmp_le_iff a b ha hb).mp h1) ((dcmp_le_iff b c hb hc).mp h2))
  · intro a b ha hb
    rcases le_total (dval a) (dval b) with h | h
    · exact Or.inl ((dcmp_le_iff a b ha hb).mpr h)
    · exact Or.inr ((dcmp_le_iff b a hb ha).mpr h)

/-- strcmp of a string with itself is zero. -/
theorem strcmp_self (s : List Nat) : strcmp s s = 0 := by
  induction s with
  | nil => rfl
  | cons a as ih => simp [strcmp, ih]

/-- Swapping the arguments of strcmp negates the result. -/
theorem strcmp_flip (a : List Nat) : ∀ b : List Nat, strcmp b a = -strcmp a b := by
  induction a with
  | nil =>
    intro b
    cases b with
    | nil => rfl
    | cons b0 bs => simp [strcmp]
  | cons a0 as ih =>
    intro b
    cases b with
    | nil => simp [strcmp]
    | cons b0 bs =>
      by_cases hab : a0 = b0
      · subst hab
        by_cases h0 : a0 = 0
        · simp [strcmp, h0]
        · simp [strcmp, h0, ih bs]
      · have hba : ¬ b0 = a0 := fun h => hab h.symm
        simp [strcmp, hab, hba]

/-- Strict transitivity of the strcmp order (on arbitrary byte lists). -/
theorem strcmp_lt_trans (a : List Nat) :
    ∀ b c : List Nat, strcmp a b < 0 → strcmp b c < 0 → strcmp a c < 0 := by
  induction a with
  | nil =>
    intro b c h1 h2
    cases b with
    | nil => simp [strcmp] at h1
    | cons b0 bs =>
      cases c with
      | nil => simp [strcmp] at h2; omega
      | cons c0 cs =>
        simp [strcmp] at h1 ⊢
        by_cases hbc : b0 = c0
        · subst hbc; exact h1
        · simp [strcmp, hbc] at h2
          omega
  | cons a0 as ih =>
    intro b c h1 h2
    cases b with
    | nil =>
      simp [strcmp] at h1
      omega
    | cons b0 bs =>
      cases c with
      | nil =>
        simp [strcmp] at h2
        omega
      | cons c0 cs =>
        by_cases hab : a0 = b0
        · subst hab
          by_cases hbc : a0 = c0
          · subst hbc
            by_cases h0 : a0 = 0
            · simp [strcmp, h0] at h1
            · simp [strcmp, h0] at h1 h2 ⊢
              exact ih bs cs h1 h2
          · simp [strcmp, hbc] at h2 ⊢
            exact h2
        · by_cases hbc : b0 = c0
          · subst hbc
            simp [strcmp, hab] at h1 ⊢
            exact h1
          · simp [strcmp, hab] at h1
            simp [strcmp, hbc] at h2
            have hac : ¬ a0 = c0 := by omega
            simp [strcmp, hac]
            omega

/-- On valid strings (no NUL bytes), strcmp is zero only for equal strings. -/
theorem strcmp_eq_zero (a : List Nat) :
    ∀ b : List Nat, strValid a → strValid b → strcmp a b = 0 → a = b := by
  induction a with
  | nil =>
    intro b _ hb h
    cases b with
    | nil => rfl
    | cons b0 bs =>
      simp [strcmp] at h
      have := (hb b0 (by simp)).1
      omega
  | cons a0 as ih =>
    intro b ha hb h
    cases b with
    | nil =>
      simp [strcmp] at h
      have := (ha a0 (by simp)).1
      omega
    | cons b0 bs =>
      by_cases hab : a0 = b0
      · subst hab
        have h0 : ¬ a0 = 0 := by
          have := (ha a0 (by simp)).1
          omega
        simp [strcmp, h0] at h
        have has : strValid as := fun x hx => ha x (by simp [hx])
        have hbs : strValid bs := fun x hx => hb x (by simp [hx])
        rw [ih bs has hbs h]
      · simp [strcmp, hab] at h
        omega

/-- The total-order laws for util_string_cmp on valid strings. -/
theorem util_string_cmp_laws : CmpTotalOrderOn strValid util_string_cmp := by
  refine cmpTotalOrderOn_of_value strValid util_string_cmp strcmp
    (fun a b => rfl) rfl (fun a => rfl) (fun a => rfl)
    (fun a _ => strcmp_self a) ?_ ?_ ?_
  · intro a b ha hb h1 h2
    have hf := strcmp_flip a b
    have hz : strcmp a b = 0 := by omega
    exact strcmp_eq_zero a b ha hb hz
  · intro a b c ha hb hc h1 h2
    rcases lt_or_eq_of_le h1 with h1s | h1e
    · rcases lt_or_eq_of_le h2 with h2s | h2e
      · exact le_of_lt (strcmp_lt_trans a b c h1s h2s)
      · obtain rfl := strcmp_eq_zero b c hb hc h2e
        exact h1
    · obtain rfl := strcmp_eq_zero a b ha hb h1e
      exact h2
  · intro a b _ _
    have hf := strcmp_flip a b
    omega

/-- C2 fails as stated: util_double_cmp declares NaN equal (result 0) to a
value it is distinct from in both argument orders, and util_int_cmp of
src/src/utilities.c orders the distinct pair (INT_MAX, -1) strictly below each
other in both directions (the subtraction wraps), so the induced relations are
neither antisymmetric nor consistent total orders. -/
theorem cmp_total_order_counterexample :
    util_double_cmp (some DoubleV.nan) (some (DoubleV.fin 0)) = 0 ∧
    util_double_cmp (some (DoubleV.fin 0)) (some DoubleV.nan) = 0 ∧
    DoubleV.nan ≠ DoubleV.fin 0 ∧
    util_int_cmp (some 2147483647) (some (-1)) < 0 ∧
    util_int_cmp (some (-1)) (some 2147483647) < 0 ∧
    (2147483647 : Int) ≠ -1 := by
  decide

/-- C2 (amended): util_char_cmp on char values and util_string_cmp on
NUL-free strings implement total orders with the null-first convention; so
does the second copy's util_int_cmp on 32-bit values and util_double_cmp
restricted to non-NaN values; and the subtraction in the first copy's
util_int_cmp agrees with the true difference (hence orders correctly)
exactly when that difference is representable in 32 bits. -/
theorem cmp_total_order_with_null_amended :
    CmpTotalOrderOn charValid util_char_cmp ∧
    CmpTotalOrderOn intValid Part006.util_int_cmp ∧
    CmpTotalOrderOn doubleValid util_double_cmp ∧
    CmpTotalOrderOn strValid util_string_cmp ∧
    (∀ i1 i2 : Int, intValid i1 → intValid i2 →
      INT_MIN ≤ i1 - i2 → i1 - i2 ≤ INT_MAX →
      util_int_cmp (some i1) (some i2) = i1 - i2) := by
  refine ⟨util_char_cmp_laws, part006_util_int_cmp_laws, util_double_cmp_laws,
    util_string_cmp_laws, fun i1 i2 _ _ hlo hhi => ?_⟩
  show wrap32 (i1 - i2) = i1 - i2
  exact wrap32_eq_of_small (i1 - i2) hlo hhi

/-- Witness for C2 (amended): the null-first law applied to the concrete
one-byte string "a". -/
theorem cmp_total_order_with_null_amended_witness :
    util_string_cmp none (some (bytes ("a"))) < 0 :=
  (cmp_total_order_with_null_amended.2.2.2.1).null_first (bytes ("a")) (by
    unfold strValid
    decide)
